import Mathlib

/-
  Shallow embedding of src/src/updater.py (class UpdateManager).

  Times are modeled as integers (the Python source compares time.time()
  values at second granularity).  File system writes are assumed to
  succeed; the content of the persisted installed_version.json file is
  carried inside the coordinator state as a FileContent value.  The
  outcome of each requests.get call is passed in as an explicit
  FetchResult argument; the Bool component returned by the model of
  _is_new_version_available records whether the requests.get call was
  reached (instrumentation used to state "no fetch performed").
  The time.strftime fallback string is passed in as the nowDate argument.
-/

namespace GpoUpdater

/-- Python truthiness of an optional string value such as
`self.installed_commit` (None and the empty string are falsy). -/
def truthy : Option String → Bool
  | none => false
  | some s => s != ""

/-- The short hash `sha[:7]`. -/
def shortHash (s : String) : String := s.take 7

/-- `self.check_interval = 300` (updater.py line 14). -/
def check_interval : Int := 300

/-- `self.max_failures = 3` (updater.py line 17). -/
def max_failures : Nat := 3

/-- Parsed JSON commit object returned by the GitHub API.  The nested
paths commit.message and commit.committer.date are flattened: the Option
is none when any dictionary on the path is missing, matching the chained
.get accesses in the source. -/
structure CommitData where
  sha : Option String
  message : Option String
  committerDate : Option String
  deriving DecidableEq, Repr

/-- The dict stored in `self.pending_update` (updater.py line 226). -/
structure PendingUpdate where
  hash : String
  message : String
  data : CommitData
  deriving DecidableEq, Repr

/-- The updated_at field of the persisted JSON file: absent
(data.get defaults to 0), present but non numeric (the comparison at
line 42 raises and the except clause returns None), or a number. -/
inductive TimeField
  | missing
  | unparsable
  | val (t : Int)
  deriving DecidableEq, Repr

/-- The JSON object persisted in installed_version.json. -/
structure VersionData where
  commit_hash : Option String
  full_hash : Option String
  message : Option String
  date : Option String
  updated_at : TimeField
  deriving DecidableEq, Repr

/-- State of the installed_version.json file on disk. -/
inductive FileContent
  | absent
  | malformed
  | record (d : VersionData)
  deriving DecidableEq, Repr

/-- Outcome of a requests.get call on the commits endpoint: an HTTP
response (body none when response.json() raises), or a raised
requests exception (other covers the generic except clause). -/
inductive FetchResult
  | response (status : Nat) (body : Option CommitData)
  | timeout
  | connectionError
  | otherError
  deriving DecidableEq, Repr

/-- In-memory state of an UpdateManager instance, plus the persisted
file it owns. -/
structure Coordinator where
  installed_commit : Option String
  last_check : Int
  pending_update : Option PendingUpdate
  update_check_failures : Nat
  file : FileContent
  deriving DecidableEq, Repr

/-- The commit_hash validation at updater.py line 46:
`if commit_hash and len(commit_hash) >= 7`. -/
def loadHashCheck : Option String → Option String
  | none => none
  | some h => if h = "" then none else if 7 ≤ h.length then some h else none

/-- UpdateManager._load_installed_version (updater.py lines 29 to 54).
Returns the installed commit hash, or none when the file is absent,
malformed (json.load raises), has a future timestamp, or an invalid
commit_hash.  All exception paths of the source return None. -/
def _load_installed_version (file : FileContent) (current_time : Int) :
    Option String :=
  match file with
  | .absent => none
  | .malformed => none
  | .record d =>
    match d.updated_at with
    | .unparsable => none
    | .missing =>
        if (0 : Int) > current_time + 86400 then none
        else loadHashCheck d.commit_hash
    | .val t =>
        if t > current_time + 86400 then none
        else loadHashCheck d.commit_hash

/-- First line of a commit message: `m.split(chr(10))[0]`. -/
def firstLine (s : String) : String := (s.splitOn "\n").headD ""

/-- The message field computed at updater.py line 67. -/
def savedMessage (cd : CommitData) : String :=
  match cd.message with
  | some m => if m = "" then "Unknown" else firstLine m
  | none => "Unknown"

/-- The date field computed at updater.py line 68; nowDate is the
time.strftime fallback. -/
def savedDate (cd : CommitData) (nowDate : String) : String :=
  match cd.committerDate with
  | some d => if d = "" then nowDate else d
  | none => nowDate

/-- UpdateManager._save_installed_version (updater.py lines 56 to 90).
Rejects a falsy payload or a falsy sha, otherwise writes the new
VersionData to the file and updates installed_commit.  The best effort
.backup copy and file write errors are not modeled. -/
def _save_installed_version (st : Coordinator) (commit_data : Option CommitData)
    (now : Int) (nowDate : String) : Coordinator × Bool :=
  match commit_data with
  | none => (st, false)
  | some cd =>
    match cd.sha with
    | none => (st, false)
    | some s =>
      if s = "" then (st, false)
      else
        let d : VersionData :=
          { commit_hash := some (shortHash s),
            full_hash := some s,
            message := some (savedMessage cd),
            date := some (savedDate cd nowDate),
            updated_at := .val now }
        ({ st with file := .record d, installed_commit := some (shortHash s) },
         true)

/-- UpdateManager._create_placeholder_version (updater.py lines 121 to
141): writes the offline placeholder record and sets installed_commit
to the sentinel. -/
def _create_placeholder_version (st : Coordinator) (now : Int)
    (nowDate : String) : Coordinator :=
  { st with
      file := .record
        { commit_hash := some "offline",
          full_hash := some "offline_placeholder_to_prevent_update_nagging",
          message := some "Offline placeholder - prevents update nagging",
          date := some nowDate,
          updated_at := .val now },
      installed_commit := some "offline" }

/-- UpdateManager._mark_current_as_installed (updater.py lines 92 to
119): on HTTP 200 with a parseable body, save it; any other outcome
(non 200 status, json error, network exception) returns False. -/
def _mark_current_as_installed (st : Coordinator) (fetch : FetchResult)
    (now : Int) (nowDate : String) : Coordinator × Bool :=
  match fetch with
  | .response 200 (some cd) => _save_installed_version st (some cd) now nowDate
  | _ => (st, false)

/-- UpdateManager.__init__ (updater.py lines 9 to 27): load the
persisted record; when falsy, try one seeding fetch, and on failure
create the offline placeholder. -/
def initCoordinator (file : FileContent) (now : Int) (nowDate : String)
    (seedFetch : FetchResult) : Coordinator :=
  let st0 : Coordinator :=
    { installed_commit := _load_installed_version file now,
      last_check := 0,
      pending_update := none,
      update_check_failures := 0,
      file := file }
  if truthy st0.installed_commit then st0
  else
    let r := _mark_current_as_installed st0 seedFetch now nowDate
    if r.2 then r.1 else _create_placeholder_version r.1 now nowDate

/-- `self.update_check_failures += 1`. -/
def bumpFailures (st : Coordinator) : Coordinator :=
  { st with update_check_failures := st.update_check_failures + 1 }

/-- `self.update_check_failures = 0`. -/
def resetFailures (st : Coordinator) : Coordinator :=
  { st with update_check_failures := 0 }

/-- UpdateManager._is_new_version_available (updater.py lines 143 to
191).  Returns the new state, the commit data when a new version is
available, and whether the requests.get call was reached.  The offline
and failure gates return before any fetch; every failure path of the
fetch increments the failure counter; both success branches reset it. -/
def _is_new_version_available (st : Coordinator) (fetch : FetchResult) :
    Coordinator × Option CommitData × Bool :=
  if st.installed_commit = some "offline" then (st, none, false)
  else if max_failures ≤ st.update_check_failures then (st, none, false)
  else
    match fetch with
    | .response 200 (some cd) =>
      match cd.sha with
      | none => (bumpFailures st, none, true)
      | some s =>
        let latest := shortHash s
        if truthy st.installed_commit ∧ st.installed_commit ≠ some latest
            ∧ st.installed_commit ≠ some "offline" then
          (resetFailures st, some cd, true)
        else
          (resetFailures st, none, true)
    | .response 200 none => (bumpFailures st, none, true)
    | .response _ _ => (bumpFailures st, none, true)
    | .timeout => (bumpFailures st, none, true)
    | .connectionError => (bumpFailures st, none, true)
    | .otherError => (bumpFailures st, none, true)

/-- Observable outcome of one check_for_updates invocation: returned at
the busy gate, returned at the throttle gate, the up to date status
(carrying whether a fetch was reached), or the scheduling of
_prompt_update via root.after. -/
inductive CheckOutcome
  | skippedBusy
  | skippedThrottle
  | upToDate (fetched : Bool)
  | promptScheduled (hash : String) (message : String) (data : CommitData)
  deriving DecidableEq, Repr

/-- The message string computed at updater.py line 212. -/
def promptMessage (cd : CommitData) : String :=
  match cd.message with
  | some m => if m = "" then "Unknown changes" else firstLine m
  | none => "Unknown changes"

/-- UpdateManager.check_for_updates (updater.py lines 193 to 221):
busy gate, throttle gate, update of last_check, then the fetch and
diff decision; a positive result schedules the prompt. -/
def check_for_updates (st : Coordinator) (busy : Bool) (now : Int)
    (fetch : FetchResult) : Coordinator × CheckOutcome :=
  if busy then (st, .skippedBusy)
  else if now - st.last_check < check_interval then (st, .skippedThrottle)
  else
    let st1 := { st with last_check := now }
    let r := _is_new_version_available st1 fetch
    match r with
    | (st2, some cd, _) =>
        (st2, .promptScheduled (shortHash (cd.sha.getD "")) (promptMessage cd) cd)
    | (st2, none, fetched) => (st2, .upToDate fetched)

/-- The three way user decision of the update dialog. -/
inductive Choice
  | update
  | skip_forever
  | skip_once
  deriving DecidableEq, Repr

/-- Environment of _download_and_install_update: the zip download can
fail with a non 200 status, extraction can fail to find the folder, or
everything succeeds.  The file copy mechanics are not modeled. -/
inductive InstallEnv
  | httpFail
  | extractFail
  | ok
  deriving DecidableEq, Repr

/-- Observable outcome of one _prompt_update invocation. -/
inductive PromptOutcome
  | deferred
  | installStarted
  | skippedForever
  | skippedOnce
  deriving DecidableEq, Repr

/-- UpdateManager._download_and_install_update (updater.py lines 296 to
391), abstracted to its effect on coordinator state: on success it
calls _save_installed_version with the commit data (line 385); failures
leave the state unchanged. -/
def _download_and_install_update (st : Coordinator) (cd : CommitData)
    (env : InstallEnv) (now : Int) (nowDate : String) : Coordinator :=
  match env with
  | .httpFail => st
  | .extractFail => st
  | .ok => (_save_installed_version st (some cd) now nowDate).1

/-- UpdateManager._prompt_update (updater.py lines 223 to 243): when the
host is busy the update is stored in pending_update and the prompt is
deferred; otherwise the dialog outcome drives install, skip_forever
(save without installing) or skip_once. -/
def _prompt_update (st : Coordinator) (busy : Bool) (hash message : String)
    (cd : CommitData) (choice : Choice) (env : InstallEnv)
    (now : Int) (nowDate : String) : Coordinator × PromptOutcome :=
  if busy then
    let pu : PendingUpdate := { hash := hash, message := message, data := cd }
    ({ st with pending_update := some pu }, .deferred)
  else
    match choice with
    | .update => (_download_and_install_update st cd env now nowDate, .installStarted)
    | .skip_forever =>
        ((_save_installed_version st (some cd) now nowDate).1, .skippedForever)
    | .skip_once => (st, .skippedOnce)

/-- UpdateManager.show_pending_update (updater.py lines 422 to 429):
when a pending update exists, call _prompt_update on it and then set
pending_update to None. -/
def show_pending_update (st : Coordinator) (busy : Bool) (choice : Choice)
    (env : InstallEnv) (now : Int) (nowDate : String) :
    Coordinator × Option PromptOutcome :=
  match st.pending_update with
  | none => (st, none)
  | some pu =>
    let r := _prompt_update st busy pu.hash pu.message pu.data choice env now nowDate
    ({ r.1 with pending_update := none }, some r.2)

/-- Classifies the fetch outcomes that take a failure branch of
_is_new_version_available (timeout, connection error, generic
exception, non 200 status, unparseable body, missing sha key). -/
def fetchFailed : FetchResult → Bool
  | .response 200 (some cd) => cd.sha.isNone
  | .response 200 none => true
  | .response _ _ => true
  | .timeout => true
  | .connectionError => true
  | .otherError => true

/-- Classifies the fetch outcomes for which _mark_current_as_installed
returns False (anything but a 200 response whose body has a truthy sha). -/
def seedFetchFails : FetchResult → Bool
  | .response 200 (some cd) =>
      match cd.sha with
      | some s => s == ""
      | none => true
  | _ => true

/-- Whether a check outcome involved reaching the requests.get call. -/
def outcomeFetched : CheckOutcome → Bool
  | .upToDate fetched => fetched
  | .promptScheduled _ _ _ => true
  | _ => false

/-- _is_new_version_available never touches installed_commit, last_check,
pending_update or the persisted file; it only rewrites the failure
counter. -/
theorem isNew_frame (st : Coordinator) (f : FetchResult) :
    (_is_new_version_available st f).1.installed_commit = st.installed_commit
    ∧ (_is_new_version_available st f).1.last_check = st.last_check
    ∧ (_is_new_version_available st f).1.pending_update = st.pending_update
    ∧ (_is_new_version_available st f).1.file = st.file := by
  unfold _is_new_version_available
  repeat' split
  all_goals simp [bumpFailures, resetFailures, apply_ite]

/-- When the failure counter has reached the limit,
_is_new_version_available returns without reaching the fetch. -/
theorem isNew_breaker (st : Coordinator) (f : FetchResult)
    (h : max_failures ≤ st.update_check_failures) :
    _is_new_version_available st f = (st, none, false) := by
  unfold _is_new_version_available
  repeat' split
  any_goals rfl

/-- When installed_commit is the offline sentinel,
_is_new_version_available returns without reaching the fetch. -/
theorem isNew_offline (st : Coordinator) (f : FetchResult)
    (h : st.installed_commit = some "offline") :
    _is_new_version_available st f = (st, none, false) := by
  unfold _is_new_version_available
  rw [if_pos h]

/-- A save with a present, nonempty sha succeeds and writes the derived
record. -/
theorem save_success (st : Coordinator) (cd : CommitData) (s : String)
    (now : Int) (nd : String) (hsha : cd.sha = some s) (hne : s ≠ "") :
    _save_installed_version st (some cd) now nd
      = ({ st with
            file := .record
              { commit_hash := some (shortHash s),
                full_hash := some s,
                message := some (savedMessage cd),
                date := some (savedDate cd nd),
                updated_at := .val now },
            installed_commit := some (shortHash s) }, true) := by
  unfold _save_installed_version
  dsimp only
  rw [hsha]
  dsimp only
  rw [if_neg hne]

/-- If the installed commit equals the short hash of the fetched sha,
no update is reported. -/
theorem isNew_same_hash_none (st : Coordinator) (cd : CommitData) (s : String)
    (hsha : cd.sha = some s) (hinst : st.installed_commit = some (shortHash s)) :
    (_is_new_version_available st (.response 200 (some cd))).2.1 = none := by
  unfold _is_new_version_available
  by_cases hoff : st.installed_commit = some "offline"
  · rw [if_pos hoff]
  · rw [if_neg hoff]
    by_cases hbr : max_failures ≤ st.update_check_failures
    · rw [if_pos hbr]
    · rw [if_neg hbr]
      dsimp only
      rw [hsha]
      dsimp only
      rw [if_neg (by rintro ⟨h1, h2, h3⟩; exact h2 hinst)]

/-- check_for_updates past the busy and throttle gates reduces to the
fetch decision on the state with last_check set to now. -/
theorem check_pass_reduce (st : Coordinator) (now : Int) (f : FetchResult)
    (hth : ¬ now - st.last_check < check_interval) :
    check_for_updates st false now f
      = match _is_new_version_available { st with last_check := now } f with
        | (st2, some cd, _) =>
            (st2, .promptScheduled (shortHash (cd.sha.getD "")) (promptMessage cd) cd)
        | (st2, none, fetched) => (st2, .upToDate fetched) := by
  unfold check_for_updates
  rw [if_neg (by simp), if_neg hth]

/-- A check invoked inside the throttle window returns unchanged. -/
theorem check_throttled (st : Coordinator) (now : Int) (f : FetchResult)
    (hth : now - st.last_check < check_interval) :
    check_for_updates st false now f = (st, .skippedThrottle) := by
  unfold check_for_updates
  rw [if_neg (by simp), if_pos hth]

/-- Claim C1: after the user chooses skip_forever for a remote commit
with short hash H (a fetched commit whose sha is present and nonempty),
the coordinator persists a VersionRecord with hash H without installing
(outcome skippedForever), and every subsequent check that passes the
busy and throttle gates, in which the remote still returns a sha whose
first 7 characters equal H, reports up to date and produces no
prompt. -/
theorem C1_skip_forever_anti_nag (st : Coordinator) (hsh m : String)
    (cd : CommitData) (s : String) (env : InstallEnv) (now : Int) (nd : String)
    (hsha : cd.sha = some s) (hne : s ≠ "") :
    ((_prompt_update st false hsh m cd .skip_forever env now nd).2
        = .skippedForever)
    ∧ ((_prompt_update st false hsh m cd .skip_forever env now nd).1.installed_commit
        = some (shortHash s))
    ∧ (∃ d, (_prompt_update st false hsh m cd .skip_forever env now nd).1.file
          = .record d ∧ d.commit_hash = some (shortHash s))
    ∧ (∀ (st2 : Coordinator) (now2 : Int) (cd2 : CommitData) (s2 : String),
        st2.installed_commit = some (shortHash s) → cd2.sha = some s2 →
        shortHash s2 = shortHash s → check_interval ≤ now2 - st2.last_check →
        ∃ b, (check_for_updates st2 false now2 (.response 200 (some cd2))).2
          = .upToDate b) := by
  have hp : _prompt_update st false hsh m cd .skip_forever env now nd
      = ({ st with
            file := .record
              { commit_hash := some (shortHash s),
                full_hash := some s,
                message := some (savedMessage cd),
                date := some (savedDate cd nd),
                updated_at := .val now },
            installed_commit := some (shortHash s) }, .skippedForever) := by
    show ((_save_installed_version st (some cd) now nd).1,
        PromptOutcome.skippedForever) = _
    rw [save_success st cd s now nd hsha hne]
  refine ⟨?_, ?_, ?_, ?_⟩
  · rw [hp]
  · rw [hp]
  · rw [hp]
    exact ⟨_, rfl, rfl⟩
  · intro st2 now2 cd2 s2 hinst hsha2 hshort hthr
    rw [check_pass_reduce st2 now2 _ (not_lt.mpr hthr)]
    have hn : (_is_new_version_available { st2 with last_check := now2 }
        (.response 200 (some cd2))).2.1 = none := by
      refine isNew_same_hash_none _ cd2 s2 hsha2 ?_
      show st2.installed_commit = some (shortHash s2)
      rw [hshort]
      exact hinst
    rcases hre : _is_new_version_available { st2 with last_check := now2 }
        (.response 200 (some cd2)) with ⟨st3, o, b⟩
    rw [hre] at hn
    dsimp at hn
    subst hn
    exact ⟨b, rfl⟩

/-- Commit data used by the C1 witness. -/
def cdC1w : CommitData :=
  { sha := some "def5678zz", message := none, committerDate := none }

/-- State used by the C1 witness before the skip_forever decision. -/
def stC1w : Coordinator :=
  { installed_commit := some "abc1234"
    last_check := 0
    pending_update := none
    update_check_failures := 0
    file := .absent }

/-- State used by the C1 witness for the subsequent check. -/
def stC1b : Coordinator :=
  { installed_commit := some "def5678"
    last_check := 0
    pending_update := none
    update_check_failures := 0
    file := .absent }

/-- Claim C1 witness at a concrete skip_forever decision and a concrete
subsequent check against the same remote hash. -/
theorem C1_skip_forever_anti_nag_witness :
    ((_prompt_update stC1w false "def5678" "m" cdC1w .skip_forever .ok 10 "d").2
        = .skippedForever)
    ∧ (∃ b, (check_for_updates stC1b false 400 (.response 200 (some cdC1w))).2
        = .upToDate b) :=
  ⟨(C1_skip_forever_anti_nag stC1w "def5678" "m" cdC1w "def5678zz" .ok 10 "d"
      rfl (by decide)).1,
   (C1_skip_forever_anti_nag stC1w "def5678" "m" cdC1w "def5678zz" .ok 10 "d"
      rfl (by decide)).2.2.2 stC1b 400 cdC1w "def5678zz" (by decide) rfl rfl
      (by decide)⟩

/-- Claim C2: for every coordinator state in which a fetch can occur
(failure counter below the limit) and every successful fetch (HTTP 200,
parseable body with a sha), a new version is reported iff
installed_commit is set (non empty), is not the sentinel offline, and
differs from the first 7 characters of the fetched sha; in particular
an unset installed_commit never yields a prompt. -/
theorem C2_diff_decision (st : Coordinator) (cd : CommitData) (s : String)
    (hsha : cd.sha = some s) (hfail : st.update_check_failures < max_failures) :
    ((_is_new_version_available st (.response 200 (some cd))).2.1 ≠ none
      ↔ (truthy st.installed_commit = true
          ∧ st.installed_commit ≠ some "offline"
          ∧ st.installed_commit ≠ some (shortHash s)))
    ∧ (st.installed_commit = none →
        (_is_new_version_available st (.response 200 (some cd))).2.1 = none) := by
  have hnle : ¬ max_failures ≤ st.update_check_failures := Nat.not_le.mpr hfail
  constructor
  · by_cases hoff : st.installed_commit = some "offline"
    · rw [isNew_offline st _ hoff]
      simp [hoff]
    · unfold _is_new_version_available
      rw [if_neg hoff, if_neg hnle]
      dsimp only
      rw [hsha]
      dsimp only
      by_cases hc : truthy st.installed_commit = true
          ∧ st.installed_commit ≠ some (shortHash s)
          ∧ st.installed_commit ≠ some "offline"
      · rw [if_pos hc]
        exact iff_of_true (by simp) ⟨hc.1, hc.2.2, hc.2.1⟩
      · rw [if_neg hc]
        exact iff_of_false (by simp)
          (fun hr => hc ⟨hr.1, hr.2.2, hr.2.1⟩)
  · intro hn
    unfold _is_new_version_available
    rw [if_neg (by simp [hn]), if_neg hnle]
    dsimp only
    rw [hsha]
    dsimp only
    rw [if_neg (by rintro ⟨h1, h2, h3⟩; rw [hn] at h1; simp [truthy] at h1)]

/-- Commit data used by the C2 witness. -/
def cdC2w : CommitData :=
  { sha := some "def5678zz", message := none, committerDate := none }

/-- State used by the C2 witness. -/
def stC2w : Coordinator :=
  { installed_commit := some "abc1234"
    last_check := 0
    pending_update := none
    update_check_failures := 0
    file := .absent }

/-- Claim C2 witness at a concrete state and fetched commit. -/
theorem C2_diff_decision_witness :
    ((_is_new_version_available stC2w (.response 200 (some cdC2w))).2.1 ≠ none
      ↔ (truthy stC2w.installed_commit = true
          ∧ stC2w.installed_commit ≠ some "offline"
          ∧ stC2w.installed_commit ≠ some (shortHash "def5678zz")))
    ∧ (stC2w.installed_commit = none →
        (_is_new_version_available stC2w (.response 200 (some cdC2w))).2.1 = none) :=
  C2_diff_decision stC2w cdC2w "def5678zz" rfl (by decide)

/-- Claim C4: each fetch failure, when a fetch is reached, increments
the failure counter by exactly 1 and leaves everything else (in
particular the installed version) unchanged; once the counter is at
max_failures every check performs no fetch and leaves the counter and
the installed version unchanged, for every invocation time (no timed
reset); a successful fetch resets the counter to 0. -/
theorem C4_circuit_breaker (st : Coordinator) (f : FetchResult) (busy : Bool)
    (now : Int) (cd : CommitData) (s : String) :
    (st.installed_commit ≠ some "offline" →
      st.update_check_failures < max_failures → fetchFailed f = true →
      _is_new_version_available st f = (bumpFailures st, none, true))
    ∧ (max_failures ≤ st.update_check_failures →
        outcomeFetched (check_for_updates st busy now f).2 = false
        ∧ (check_for_updates st busy now f).1.update_check_failures
            = st.update_check_failures
        ∧ (check_for_updates st busy now f).1.installed_commit
            = st.installed_commit)
    ∧ (st.installed_commit ≠ some "offline" →
        st.update_check_failures < max_failures → cd.sha = some s →
        (_is_new_version_available st (.response 200 (some cd))).1.update_check_failures
            = 0
        ∧ (_is_new_version_available st (.response 200 (some cd))).2.2 = true) := by
  refine ⟨?_, ?_, ?_⟩
  · intro hoff hfl hff
    unfold _is_new_version_available
    rw [if_neg hoff, if_neg (Nat.not_le.mpr hfl)]
    split
    · next cd2 =>
        have hn : cd2.sha = none := by
          simpa [fetchFailed, Option.isNone_iff_eq_none] using hff
        dsimp only
        rw [hn]
    · rfl
    · rfl
    · rfl
    · rfl
    · rfl
  · intro hmax
    cases busy with
    | true => exact ⟨rfl, rfl, rfl⟩
    | false =>
      unfold check_for_updates
      rw [if_neg (by simp)]
      by_cases hth : now - st.last_check < check_interval
      · rw [if_pos hth]
        exact ⟨rfl, rfl, rfl⟩
      · rw [if_neg hth]
        dsimp only
        rw [isNew_breaker { st with last_check := now } f hmax]
        exact ⟨rfl, rfl, rfl⟩
  · intro hoff hfl hsha
    unfold _is_new_version_available
    rw [if_neg hoff, if_neg (Nat.not_le.mpr hfl)]
    dsimp only
    rw [hsha]
    dsimp only
    split
    · exact ⟨rfl, rfl⟩
    · exact ⟨rfl, rfl⟩

/-- Commit data used by the C4 witness. -/
def cdC4w : CommitData :=
  { sha := some "def5678zz", message := none, committerDate := none }

/-- State used by the C4 witness with a clear failure counter. -/
def stC4w : Coordinator :=
  { installed_commit := some "abc1234"
    last_check := 0
    pending_update := none
    update_check_failures := 0
    file := .absent }

/-- State used by the C4 witness with the breaker tripped. -/
def stC4br : Coordinator :=
  { installed_commit := some "abc1234"
    last_check := 0
    pending_update := none
    update_check_failures := 3
    file := .absent }

/-- Claim C4 witness: a concrete timeout bumps the counter by one, and
with the counter at the limit a concrete check performs no fetch. -/
theorem C4_circuit_breaker_witness :
    (_is_new_version_available stC4w .timeout = (bumpFailures stC4w, none, true))
    ∧ outcomeFetched (check_for_updates stC4br false 1000 .timeout).2 = false :=
  ⟨(C4_circuit_breaker stC4w .timeout false 1000 cdC4w "x").1 (by decide)
      (by decide) rfl,
   ((C4_circuit_breaker stC4br .timeout false 1000 cdC4w "x").2.1
      (by decide)).1⟩

/-- Claim C3: loading the persisted VersionRecord rejects the record
(returns none, never a crash) whenever updated_at is unparsable or lies
more than 86400 seconds in the future relative to the read time, and
likewise whenever commit_hash is missing or shorter than 7 characters. -/
theorem C3_load_rejects_corrupt (d : VersionData) (now : Int) :
    (d.updated_at = .unparsable → _load_installed_version (.record d) now = none)
    ∧ (∀ t, d.updated_at = .val t → now + 86400 < t →
        _load_installed_version (.record d) now = none)
    ∧ (d.commit_hash = none → _load_installed_version (.record d) now = none)
    ∧ (∀ h, d.commit_hash = some h → h.length < 7 →
        _load_installed_version (.record d) now = none) := by
  refine ⟨?_, ?_, ?_, ?_⟩
  · intro h
    simp [_load_installed_version, h]
  · intro t ht hgt
    simp only [_load_installed_version, ht]
    rw [if_pos hgt]
  · intro h
    unfold _load_installed_version
    cases hu : d.updated_at <;> simp [hu, h, loadHashCheck]
  · intro h hch hlen
    unfold _load_installed_version
    have hn7 : ¬ 7 ≤ h.length := by omega
    cases hu : d.updated_at <;> simp [hu, hch, loadHashCheck, hn7]

/-- Witness for C3 at a concrete corrupt record. -/
def stC3rec : VersionData :=
  { commit_hash := some "abc"
    full_hash := none
    message := none
    date := none
    updated_at := .val 0 }

/-- Claim C3 witness: a record whose commit_hash has fewer than 7
characters is rejected. -/
theorem C3_load_rejects_corrupt_witness :
    _load_installed_version (.record stC3rec) 0 = none :=
  (C3_load_rejects_corrupt stC3rec 0).2.2.2 "abc" rfl (by decide)

/-- Claim C9: the placeholder record round-trips through load: after a
placeholder write at time t, loading at any read time now with t ≤ now
returns the sentinel offline, because the string offline is exactly 7
characters long and its updated_at is the write time, never more than
86400 seconds in the future at the later read. -/
theorem C9_placeholder_roundtrip (st : Coordinator) (t now : Int)
    (nd : String) (h : t ≤ now) :
    _load_installed_version (_create_placeholder_version st t nd).file now
      = some "offline" := by
  unfold _create_placeholder_version _load_installed_version
  dsimp only
  rw [if_neg (by omega : ¬ t > now + 86400)]
  decide

/-- Concrete state used by the C9 witness. -/
def stC9w : Coordinator :=
  { installed_commit := none
    last_check := 0
    pending_update := none
    update_check_failures := 0
    file := .absent }

/-- Claim C9 witness at write time 0 and read time 5. -/
theorem C9_placeholder_roundtrip_witness :
    _load_installed_version (_create_placeholder_version stC9w 0 "d").file 5
      = some "offline" :=
  C9_placeholder_roundtrip stC9w 0 5 "d" (by decide)

/-- Claim C10: saving an installed version is atomic on invalid input:
for every commit payload that is empty or lacks a sha field, the save
operation returns failure and leaves both the in-memory
installed_commit and the persisted VersionRecord file unchanged. -/
theorem C10_save_invalid_is_noop (st : Coordinator)
    (payload : Option CommitData) (now : Int) (nd : String)
    (h : payload = none ∨ ∃ cd, payload = some cd ∧ cd.sha = none) :
    _save_installed_version st payload now nd = (st, false) := by
  rcases h with h | ⟨cd, hp, hs⟩
  · subst h
    rfl
  · subst hp
    simp [_save_installed_version, hs]

/-- Concrete state used by the C10 witness. -/
def stC10w : Coordinator :=
  { installed_commit := some "abc1234"
    last_check := 0
    pending_update := none
    update_check_failures := 0
    file := .absent }

/-- Claim C10 witness: saving a missing payload fails and changes
nothing. -/
theorem C10_save_invalid_is_noop_witness :
    _save_installed_version stC10w none 0 "d" = (stC10w, false) :=
  C10_save_invalid_is_noop stC10w none 0 "d" (Or.inl rfl)

/-- Commit data used by the C5 counterexample. -/
def cdC5x : CommitData :=
  { sha := some "def5678zzz", message := none, committerDate := none }

/-- State with a pending update, used by the C5 counterexample. -/
def stC5x : Coordinator :=
  { installed_commit := some "abc1234"
    last_check := 0
    pending_update := some (PendingUpdate.mk "def5678" "msg" cdC5x)
    update_check_failures := 0
    file := .absent }

/-- Counterexample to claim C5: when show_pending_update is invoked
while the host is still busy, the prompt is deferred again (not shown),
yet pending_update is cleared anyway, so the deferred update is
dropped — clearing is not tied to the prompt being shown. -/
theorem C5_counterexample :
    stC5x.pending_update.isSome = true
    ∧ (show_pending_update stC5x true .skip_once .ok 0 "d").2 = some .deferred
    ∧ (show_pending_update stC5x true .skip_once .ok 0 "d").1.pending_update
        = none := by
  decide

/-- Claim C5 (amended): when the host is busy at check time, no fetch
and no prompt occur and nothing changes; an update prompted while the
host is busy is stored as the pending update; pending_update is cleared
on every show_pending_update invocation that finds one — if the host is
not busy at that moment the prompt is shown (outcome is not deferred),
but if the host is still busy the prompt is deferred again and
pending_update is cleared nonetheless. -/
theorem C5_busy_gate_deferral (st : Coordinator) (now : Int) (f : FetchResult)
    (hsh m : String) (cd : CommitData) (ch : Choice) (env : InstallEnv)
    (nd : String) (pu : PendingUpdate) (busy : Bool) :
    (check_for_updates st true now f = (st, .skippedBusy))
    ∧ (_prompt_update st true hsh m cd ch env now nd
        = ({ st with pending_update := some (PendingUpdate.mk hsh m cd) },
           .deferred))
    ∧ (st.pending_update = some pu →
        (show_pending_update st busy ch env now nd).1.pending_update = none)
    ∧ (st.pending_update = some pu →
        (show_pending_update st false ch env now nd).2 ≠ some .deferred)
    ∧ (st.pending_update = some pu →
        (show_pending_update st true ch env now nd).2 = some .deferred) := by
  refine ⟨rfl, rfl, ?_, ?_, ?_⟩
  · intro h
    simp [show_pending_update, h]
  · intro h
    cases ch <;> simp [show_pending_update, h, _prompt_update]
  · intro h
    simp [show_pending_update, h, _prompt_update]

/-- State with a pending update, used by the C5 witness. -/
def stC5w : Coordinator :=
  { installed_commit := some "abc1234"
    last_check := 0
    pending_update := some (PendingUpdate.mk "def5678" "msg" cdC5x)
    update_check_failures := 0
    file := .absent }

/-- Claim C5 witness: concrete busy gate and deferred prompt handling. -/
theorem C5_busy_gate_deferral_witness :
    (check_for_updates stC5w true 1000 .timeout = (stC5w, .skippedBusy))
    ∧ ((show_pending_update stC5w false .skip_once .ok 0 "d").1.pending_update
        = none)
    ∧ ((show_pending_update stC5w false .skip_once .ok 0 "d").2
        ≠ some .deferred) :=
  ⟨(C5_busy_gate_deferral stC5w 1000 .timeout "h" "m" cdC5x .skip_once .ok "d"
      (PendingUpdate.mk "def5678" "msg" cdC5x) false).1,
   (C5_busy_gate_deferral stC5w 1000 .timeout "h" "m" cdC5x .skip_once .ok "d"
      (PendingUpdate.mk "def5678" "msg" cdC5x) false).2.2.1 rfl,
   (C5_busy_gate_deferral stC5w 1000 .timeout "h" "m" cdC5x .skip_once .ok "d"
      (PendingUpdate.mk "def5678" "msg" cdC5x) false).2.2.2.1 rfl⟩

/-- State with the offline sentinel, used by the C6 counterexample. -/
def stC6x : Coordinator :=
  { installed_commit := some "offline"
    last_check := 0
    pending_update := none
    update_check_failures := 0
    file := .absent }

/-- Counterexample to claim C6: when gate (c) fails (installed_commit
equals offline) but the busy and throttle gates pass, the check still
mutates coordinator state: last_check is set to the invocation time. -/
theorem C6_counterexample :
    stC6x.installed_commit = some "offline"
    ∧ stC6x.last_check = 0
    ∧ (check_for_updates stC6x false 400 .timeout).1.last_check = 400 := by
  decide

/-- Claim C6 (amended): a busy or throttle gate failure leaves the
coordinator fully unchanged with no fetch and no prompt; an offline or
circuit breaker gate failure also performs no fetch and no prompt and
leaves failure_count, pending_update and installed_commit unchanged,
but sets last_check to the invocation time. -/
theorem C6_gate_frame (st : Coordinator) (now : Int) (f : FetchResult) :
    (check_for_updates st true now f = (st, .skippedBusy))
    ∧ (now - st.last_check < check_interval →
        check_for_updates st false now f = (st, .skippedThrottle))
    ∧ (check_interval ≤ now - st.last_check →
        st.installed_commit = some "offline" →
        check_for_updates st false now f
          = ({ st with last_check := now }, .upToDate false))
    ∧ (check_interval ≤ now - st.last_check →
        st.installed_commit ≠ some "offline" →
        max_failures ≤ st.update_check_failures →
        check_for_updates st false now f
          = ({ st with last_check := now }, .upToDate false)) := by
  refine ⟨rfl, ?_, ?_, ?_⟩
  · intro hth
    unfold check_for_updates
    rw [if_neg (by simp), if_pos hth]
  · intro hth hoff
    rw [check_pass_reduce st now f (not_lt.mpr hth)]
    rw [isNew_offline { st with last_check := now } f hoff]
  · intro hth hoff hmax
    rw [check_pass_reduce st now f (not_lt.mpr hth)]
    rw [isNew_breaker { st with last_check := now } f hmax]

/-- State used by the C6 witness. -/
def stC6w : Coordinator :=
  { installed_commit := some "offline"
    last_check := 0
    pending_update := none
    update_check_failures := 0
    file := .absent }

/-- Claim C6 witness: concrete throttle and offline gate outcomes. -/
theorem C6_gate_frame_witness :
    (check_for_updates stC6w false 100 .timeout = (stC6w, .skippedThrottle))
    ∧ (check_for_updates stC6w false 400 .timeout
        = ({ stC6w with last_check := 400 }, .upToDate false)) :=
  ⟨(C6_gate_frame stC6w 100 .timeout).2.1 (by decide),
   (C6_gate_frame stC6w 400 .timeout).2.2.1 (by decide) rfl⟩

/-- Commit data used by the C7 counterexample. -/
def cdC7x : CommitData :=
  { sha := some "abc1234zzzz", message := none, committerDate := none }

/-- State used by the C7 counterexample. -/
def stC7x : Coordinator :=
  { installed_commit := some "abc1234"
    last_check := 0
    pending_update := none
    update_check_failures := 0
    file := .absent }

/-- Counterexample to claim C7: two check invocations at T1 = 200 and
T2 = 350 with T2 - T1 = 150 below check_interval, where the first
invocation is itself throttled (last_check stays 0); the second
invocation then reaches the fetch and mutates state, so it is not a
no-op. -/
theorem C7_counterexample :
    ((200 : Int) < 350 ∧ (350 : Int) - 200 < check_interval)
    ∧ check_for_updates stC7x false 200 (.response 200 (some cdC7x))
        = (stC7x, .skippedThrottle)
    ∧ outcomeFetched (check_for_updates stC7x false 350
        (.response 200 (some cdC7x))).2 = true
    ∧ (check_for_updates stC7x false 350 (.response 200 (some cdC7x))).1
        ≠ stC7x := by
  decide

/-- After a check that passed the busy and throttle gates, last_check
equals the invocation time. -/
theorem check_pass_last_check (st : Coordinator) (now : Int) (f : FetchResult)
    (hth : ¬ now - st.last_check < check_interval) :
    (check_for_updates st false now f).1.last_check = now := by
  rw [check_pass_reduce st now f hth]
  rcases hre : _is_new_version_available { st with last_check := now } f with
    ⟨st3, o, b⟩
  have hf := (isNew_frame { st with last_check := now } f).2.1
  rw [hre] at hf
  cases o <;> simpa using hf

/-- Claim C7 (amended): for a first check invocation at T1 that passes
the busy and throttle gates (so that last_check is set to T1), any
second invocation at T2 with T1 < T2 and T2 - T1 below check_interval
is a no-op: no fetch, no prompt, no state change. -/
theorem C7_throttle_after_passed_check (st : Coordinator) (now1 now2 : Int)
    (f1 f2 : FetchResult) (busy2 : Bool)
    (h1 : check_interval ≤ now1 - st.last_check)
    (h2 : now1 < now2) (h3 : now2 - now1 < check_interval) :
    check_for_updates (check_for_updates st false now1 f1).1 busy2 now2 f2
      = ((check_for_updates st false now1 f1).1,
         if busy2 then CheckOutcome.skippedBusy
         else CheckOutcome.skippedThrottle) := by
  have hlc := check_pass_last_check st now1 f1 (not_lt.mpr h1)
  cases busy2 with
  | true => rfl
  | false =>
    exact check_throttled (check_for_updates st false now1 f1).1 now2 f2
      (by rw [hlc]; exact h3)

/-- State used by the C7 witness. -/
def stC7w : Coordinator :=
  { installed_commit := some "abc1234"
    last_check := 0
    pending_update := none
    update_check_failures := 0
    file := .absent }

/-- Claim C7 witness: a concrete passed check at time 400 followed by a
concrete invocation at time 500 that is throttled. -/
theorem C7_throttle_after_passed_check_witness :
    check_for_updates (check_for_updates stC7w false 400 .timeout).1 false 500
        .timeout
      = ((check_for_updates stC7w false 400 .timeout).1,
         if false then CheckOutcome.skippedBusy
         else CheckOutcome.skippedThrottle) :=
  C7_throttle_after_passed_check stC7w 400 500 .timeout .timeout false
    (by decide) (by decide) (by decide)

/-- When the seeding fetch fails, _mark_current_as_installed changes
nothing and reports failure. -/
theorem mark_fails (st : Coordinator) (f : FetchResult) (now : Int)
    (nd : String) (hf : seedFetchFails f = true) :
    _mark_current_as_installed st f now nd = (st, false) := by
  unfold _mark_current_as_installed
  split
  · rename_i cd
    rcases hs : cd.sha with _ | s
    · simp [_save_installed_version, hs]
    · have he : s = "" := by
        simpa [seedFetchFails, hs] using hf
      simp [_save_installed_version, hs, he]
  · rfl

/-- Claim C8: if no persisted VersionRecord loads at construction and
the seeding fetch fails, the coordinator ends with installed_commit
equal to the offline sentinel and a persisted placeholder record with
that sentinel, and from then on every check performs no fetch and
yields no prompt, while installed_commit stays offline. -/
theorem C8_offline_first_run (file : FileContent) (now : Int) (nd : String)
    (f : FetchResult) (hload : _load_installed_version file now = none)
    (hf : seedFetchFails f = true) :
    (initCoordinator file now nd f).installed_commit = some "offline"
    ∧ (∃ d, (initCoordinator file now nd f).file = .record d
        ∧ d.commit_hash = some "offline")
    ∧ (∀ (st : Coordinator) (busy : Bool) (now2 : Int) (f2 : FetchResult),
        st.installed_commit = some "offline" →
        outcomeFetched (check_for_updates st busy now2 f2).2 = false
        ∧ (∀ h2 m2 cd2, (check_for_updates st busy now2 f2).2
            ≠ .promptScheduled h2 m2 cd2)
        ∧ (check_for_updates st busy now2 f2).1.installed_commit
            = some "offline") := by
  have hinit : initCoordinator file now nd f
      = _create_placeholder_version
          { installed_commit := none, last_check := 0, pending_update := none,
            update_check_failures := 0, file := file } now nd := by
    unfold initCoordinator
    dsimp only
    rw [hload, mark_fails _ f now nd hf]
    simp [truthy]
  refine ⟨?_, ?_, ?_⟩
  · rw [hinit]
    rfl
  · rw [hinit]
    exact ⟨_, rfl, rfl⟩
  · intro st busy now2 f2 hoff
    have hck : check_for_updates st busy now2 f2 = (st, .skippedBusy)
        ∨ check_for_updates st busy now2 f2 = (st, .skippedThrottle)
        ∨ check_for_updates st busy now2 f2
            = ({ st with last_check := now2 }, .upToDate false) := by
      cases busy with
      | true => exact Or.inl rfl
      | false =>
        by_cases hth : now2 - st.last_check < check_interval
        · refine Or.inr (Or.inl ?_)
          unfold check_for_updates
          rw [if_neg (by simp), if_pos hth]
        · refine Or.inr (Or.inr ?_)
          rw [check_pass_reduce st now2 f2 hth]
          rw [isNew_offline { st with last_check := now2 } f2 hoff]
    rcases hck with h | h | h <;>
      exact ⟨by rw [h]; rfl, fun h2 m2 cd2 => by rw [h]; simp,
        by rw [h]; exact hoff⟩

/-- State with the offline sentinel, used by the C8 witness. -/
def stC8w : Coordinator :=
  { installed_commit := some "offline"
    last_check := 0
    pending_update := none
    update_check_failures := 0
    file := .absent }

/-- Claim C8 witness: a concrete offline first run and a concrete
subsequent check that performs no fetch. -/
theorem C8_offline_first_run_witness :
    (initCoordinator .absent 0 "d" .timeout).installed_commit = some "offline"
    ∧ outcomeFetched (check_for_updates stC8w false 500 .connectionError).2
        = false :=
  ⟨(C8_offline_first_run .absent 0 "d" .timeout rfl rfl).1,
   ((C8_offline_first_run .absent 0 "d" .timeout rfl rfl).2.2 stC8w false 500
      .connectionError rfl).1⟩

end GpoUpdater
